import Mathlib

/-!
Shallow embedding of the oauth-orchestrator library (Orchestrator.ts,
errors.ts, types.ts).  JavaScript `Date` values are modelled as natural
numbers (milliseconds since the epoch), handler functions (the Capability
Contract) as pure functions returning `Except JsError α`, and each
orchestrator operation additionally returns the ordered list of capability
calls it performed, so that temporal claims about call ordering can be
stated.  The `SUPERUSER_SCOPE` environment variable is modelled as an
`Option String` configuration field.
-/

set_option maxHeartbeats 1000000

/-- Identifier = string | number (types.ts). -/
inductive Identifier where
  | str (s : String)
  | num (n : Int)
  deriving DecidableEq, Repr

/-- AccessToken record (types.ts). -/
structure AccessToken where
  expires : Nat
  scope : String
  token : String
  userId : Identifier
  deriving DecidableEq, Repr

/-- RefreshToken record (types.ts). -/
structure RefreshToken where
  accessToken : String
  expires : Nat
  token : String
  userId : Identifier
  deriving DecidableEq, Repr

/-- User record (types.ts). -/
structure User where
  scope : String
  userId : Identifier
  deriving DecidableEq, Repr

/-- PasswordTokenRequest (types.ts); `scope` is the optional field of
TokenRequest, `none` models an absent field. -/
structure PasswordTokenRequest where
  grant_type : String
  password : String
  username : String
  scope : Option String := none
  deriving DecidableEq, Repr

/-- RefreshTokenRequest (types.ts). -/
structure RefreshTokenRequest where
  grant_type : String
  refresh_token : String
  scope : Option String := none
  deriving DecidableEq, Repr

/-- TokenResponse (types.ts). -/
structure TokenResponse where
  access_token : String
  expires_in : Nat
  refresh_token : Option String
  scope : String
  token_type : String
  deriving DecidableEq, Repr

/-- A JavaScript error value: either a generic `Error` (plain) or one of the
OAuthError subclasses of errors.ts, carrying its `error` code, `status`,
`message`, optional context tag, and optional wrapped `inner` error. -/
inductive JsError where
  | plain (message : String)
  | oauth (error : String) (status : Nat) (message : String)
      (ctx : Option String) (inner : Option JsError)

/-- Source = string | Error (errors.ts). -/
inductive Source where
  | str (s : String)
  | err (e : JsError)

/-- The `message` of a JavaScript error value. -/
def JsError.msg : JsError → String
  | .plain m => m
  | .oauth _ _ m _ _ => m

/-- OAuthError constructor (errors.ts): message comes from the source, the
source is kept as `inner` when it is an Error. -/
def OAuthError.make (code : String) (status : Nat) (source : Source)
    (ctx : Option String) : JsError :=
  match source with
  | .str s => .oauth code status s ctx none
  | .err e => .oauth code status e.msg ctx (some e)

/-- InvalidGrantError (errors.ts): code invalid_grant, status 401. -/
def InvalidGrantError (source : Source) (ctx : Option String) : JsError :=
  OAuthError.make "invalid_grant" 401 source ctx

/-- InvalidScopeError (errors.ts): code invalid_scope, status 403. -/
def InvalidScopeError (source : Source) (ctx : Option String) : JsError :=
  OAuthError.make "invalid_scope" 403 source ctx

/-- InvalidTokenError (errors.ts): code invalid_token, status 401. -/
def InvalidTokenError (source : Source) (ctx : Option String) : JsError :=
  OAuthError.make "invalid_token" 401 source ctx

/-- ServerError (errors.ts): code server_error, status 500. -/
def ServerError (source : Source) (ctx : Option String) : JsError :=
  OAuthError.make "server_error" 500 source ctx

/-- UnsupportedGrantTypeError (errors.ts): code unsupported_grant_type,
status 400. -/
def UnsupportedGrantTypeError (source : Source) (ctx : Option String) : JsError :=
  OAuthError.make "unsupported_grant_type" 400 source ctx

/-- Models the `error instanceof OAuthError` test. -/
def JsError.isOAuthError : JsError → Bool
  | .plain _ => false
  | .oauth _ _ _ _ _ => true

/-- The `error` code of a thrown value, when it is an OAuthError. -/
def errCode : Except JsError α → Option String
  | .error (.oauth c _ _ _ _) => some c
  | _ => none

/-- The `status` of a thrown value, when it is an OAuthError. -/
def errStatus : Except JsError α → Option Nat
  | .error (.oauth _ s _ _ _) => some s
  | _ => none

/-- The `inner` wrapped cause of a thrown value, when present. -/
def errInner : Except JsError α → Option JsError
  | .error (.oauth _ _ _ _ i) => i
  | _ => none

/-- One capability-contract call, with the arguments it was given
(OrchestratorHandlers of types.ts, viewed as an event). -/
inductive CapCall where
  | authenticateUser (username password : String)
  | createAccessToken (expires : Nat) (scope : String) (userId : Identifier)
  | createRefreshToken (accessToken : String) (expires : Nat) (userId : Identifier)
  | retrieveAccessToken (token : String)
  | retrieveRefreshToken (token : String)
  | revokeAccessToken (token : String)
  deriving DecidableEq, Repr

/-- Calls that mutate the token store. -/
def CapCall.isMutating : CapCall → Bool
  | .createAccessToken _ _ _ => true
  | .createRefreshToken _ _ _ => true
  | .revokeAccessToken _ => true
  | _ => false

/-- OrchestratorHandlers (types.ts): the six capability operations, each
able to fail with an arbitrary JavaScript error. -/
structure OrchestratorHandlers where
  authenticateUser : String → String → Except JsError User
  createAccessToken : Nat → String → Identifier → Except JsError AccessToken
  createRefreshToken : String → Nat → Identifier → Except JsError RefreshToken
  retrieveAccessToken : String → Except JsError AccessToken
  retrieveRefreshToken : String → Except JsError RefreshToken
  revokeAccessToken : String → Except JsError Unit

/-- The Orchestrator class fields (Orchestrator.ts) together with the
module-level SUPERUSER_SCOPE configuration. -/
structure Orchestrator where
  accessTokenLifetime : Nat := 86400
  handlers : OrchestratorHandlers
  issueRefreshToken : Bool := true
  refreshTokenLifetime : Nat := 604800
  superuser : Option String := none

/-- calculateExpires (Orchestrator.ts): now plus offset seconds, in ms. -/
def calculateExpires (now offset : Nat) : Nat :=
  now + offset * 1000

/-- Does `needle` occur as a prefix of `hay`? -/
def hasPref : List Char → List Char → Bool
  | [], _ => true
  | _ :: _, [] => false
  | c :: cs, d :: ds => c == d && hasPref cs ds

/-- Does `needle` occur as a contiguous segment of the second list? -/
def hasSub (needle : List Char) : List Char → Bool
  | [] => hasPref needle []
  | d :: ds => hasPref needle (d :: ds) || hasSub needle ds

/-- JavaScript `haystack.includes(needle)`: contiguous substring test. -/
def stringIncludes (haystack needle : String) : Bool :=
  hasSub needle.data haystack.data

/-- JavaScript `String.prototype.split` with a one-character separator,
on character lists.  Never returns the empty list. -/
def jsSplitList (sep : Char) : List Char → List (List Char)
  | [] => [[]]
  | c :: cs =>
      if c == sep then [] :: jsSplitList sep cs
      else
        match jsSplitList sep cs with
        | [] => [[c]]
        | h :: t => (c :: h) :: t

/-- JavaScript `s.split(" ")`. -/
def jsSplit (s : String) : List String :=
  (jsSplitList ' ' s.data).map fun cs => String.mk cs

/-- The token list a scope string denotes in Orchestrator.includedScope:
`s ? s.split(" ") : []` (a falsy, i.e. empty, string has no tokens). -/
def tokensOf (s : String) : List String :=
  if s = "" then [] else jsSplit s

/-- Models `SUPERUSER_SCOPE && allowed.includes(SUPERUSER_SCOPE)`:
the configured superuser scope is truthy and occurs as a substring of
`allowed`. -/
def superuserTruthy (su : Option String) (allowed : String) : Bool :=
  match su with
  | some s => s != "" && stringIncludes allowed s
  | none => false

/-- Orchestrator.includedScope (Orchestrator.ts lines 214-250): is the
required scope within the bounds of the allowed scope? -/
def includedScope (su : Option String) (required allowed : String) : Bool :=
  if superuserTruthy su allowed then true
  else if required = "" then true
  else
    let requiredScopes := tokensOf required
    if requiredScopes.length == 0 then true
    else
      let allowedScopes := tokensOf allowed
      if allowedScopes.length == 0 then false
      else
        requiredScopes.all fun requiredScope =>
          allowedScopes.any fun allowedScope => requiredScope == allowedScope

/-- Truthiness of the optional `request.scope` field. -/
def optTruthy : Option String → Bool
  | some s => s != ""
  | none => false

/-- The outer try/catch of each flow: an OAuthError is rethrown unchanged,
anything else is wrapped as ServerError with the flow context. -/
def guardOuter (ctx : String) :
    Except JsError α × List CapCall → Except JsError α × List CapCall
  | (Except.error e, calls) =>
      (if e.isOAuthError then Except.error e
       else Except.error (ServerError (Source.err e) (some ctx)), calls)
  | (Except.ok a, calls) => (Except.ok a, calls)

/-- Orchestrator.authorize (Orchestrator.ts lines 93-133), with the clock
passed explicitly and the capability-call trace returned alongside. -/
def Orchestrator.authorize (o : Orchestrator) (now : Nat)
    (token required : String) : Except JsError Unit × List CapCall :=
  guardOuter "Orchestrator.authorize()" <|
    let calls := [CapCall.retrieveAccessToken token]
    match o.handlers.retrieveAccessToken token with
    | .error e =>
        (.error (InvalidTokenError (.err e)
          (some "Orchestrator.authenticate.retrieveAccessToken()")), calls)
    | .ok accessToken =>
        if now > accessToken.expires then
          (.error (InvalidTokenError (.str "token: Expired access token")
            (some "Orchestrator.authenticate.checkExpiration()")), calls)
        else if !(includedScope o.superuser required accessToken.scope) then
          (.error (InvalidScopeError
            (.str "scope: Required scope not authorized for this access token")
            (some "Orchestrator.authenticate.checkScope()")), calls)
        else
          (.ok (), calls)

/-- Orchestrator.revoke (Orchestrator.ts lines 144-160): delegate to the
revokeAccessToken capability; an OAuthError failure is rethrown unchanged,
any other failure becomes InvalidTokenError. -/
def Orchestrator.revoke (o : Orchestrator) (token : String) :
    Except JsError Unit × List CapCall :=
  let calls := [CapCall.revokeAccessToken token]
  match o.handlers.revokeAccessToken token with
  | .ok _ => (.ok (), calls)
  | .error e =>
      if e.isOAuthError then (.error e, calls)
      else
        (.error (InvalidTokenError (.str "token: Invalid access token")
          (some "Orchestrator.revoke()")), calls)

/-- Orchestrator.password (Orchestrator.ts lines 260-337). -/
def Orchestrator.password (o : Orchestrator) (now : Nat)
    (request : PasswordTokenRequest) :
    Except JsError TokenResponse × List CapCall :=
  guardOuter "Orchestrator.password()" <|
    let c1 := [CapCall.authenticateUser request.username request.password]
    match o.handlers.authenticateUser request.username request.password with
    | .error e =>
        (.error (InvalidGrantError (.err e)
          (some "Orchestrator.password.authenticateUser()")), c1)
    | .ok user =>
        if optTruthy request.scope
            && !(includedScope o.superuser (request.scope.getD "") user.scope) then
          (.error (InvalidScopeError
            (.str ("scope: Scope " ++ request.scope.getD "" ++ " not allowed"))
            (some "Orchestrator.password.checkScope()")), c1)
        else
          let grantedScope :=
            if optTruthy request.scope then request.scope.getD "" else user.scope
          let expires := calculateExpires now o.accessTokenLifetime
          let c2 := c1 ++ [CapCall.createAccessToken expires grantedScope user.userId]
          match o.handlers.createAccessToken expires grantedScope user.userId with
          | .error e =>
              (.error (InvalidTokenError (.err e)
                (some "Orchestrator.password.createAccessToken()")), c2)
          | .ok accessToken =>
              if o.issueRefreshToken then
                let expires2 := calculateExpires now o.refreshTokenLifetime
                let c3 := c2 ++
                  [CapCall.createRefreshToken accessToken.token expires2 user.userId]
                match o.handlers.createRefreshToken accessToken.token expires2
                    user.userId with
                | .error e =>
                    (.error (InvalidTokenError (.err e)
                      (some "Orchestrator.password.createRefreshToken()")), c3)
                | .ok refreshToken =>
                    (.ok { access_token := accessToken.token
                           expires_in := o.accessTokenLifetime
                           refresh_token := some refreshToken.token
                           scope := grantedScope
                           token_type := "Bearer" }, c3)
              else
                (.ok { access_token := accessToken.token
                       expires_in := o.accessTokenLifetime
                       refresh_token := none
                       scope := grantedScope
                       token_type := "Bearer" }, c2)

/-- Orchestrator.refresh (Orchestrator.ts lines 347-447). -/
def Orchestrator.refresh (o : Orchestrator) (now : Nat)
    (request : RefreshTokenRequest) :
    Except JsError TokenResponse × List CapCall :=
  guardOuter "Orchestrator.refresh()" <|
    let c1 := [CapCall.retrieveRefreshToken request.refresh_token]
    match o.handlers.retrieveRefreshToken request.refresh_token with
    | .error e =>
        (.error (InvalidTokenError (.err e)
          (some "Orchestrator.refresh.retrieveRefreshToken()")), c1)
    | .ok oldRefreshToken =>
        if now > oldRefreshToken.expires then
          (.error (InvalidTokenError (.str "token: Expired refresh token")
            (some "Orchestrator.refresh.checkExpiration()")), c1)
        else
          let c2 := c1 ++ [CapCall.retrieveAccessToken oldRefreshToken.accessToken]
          match o.handlers.retrieveAccessToken oldRefreshToken.accessToken with
          | .error e =>
              (.error (InvalidTokenError (.err e)
                (some "Orchestrator.refresh.retrieveAccessToken()")), c2)
          | .ok oldAccessToken =>
              let expires := calculateExpires now o.accessTokenLifetime
              let c3 := c2 ++ [CapCall.createAccessToken expires
                oldAccessToken.scope oldAccessToken.userId]
              match o.handlers.createAccessToken expires oldAccessToken.scope
                  oldAccessToken.userId with
              | .error e =>
                  (.error (InvalidTokenError (.err e)
                    (some "Orchestrator.refresh.createAccessToken()")), c3)
              | .ok newAccessToken =>
                  if o.issueRefreshToken then
                    let expires2 := calculateExpires now o.refreshTokenLifetime
                    let c4 := c3 ++ [CapCall.createRefreshToken
                      newAccessToken.token expires2 oldAccessToken.userId]
                    match o.handlers.createRefreshToken newAccessToken.token
                        expires2 oldAccessToken.userId with
                    | .error e =>
                        (.error (InvalidTokenError (.err e)
                          (some "Orchestrator.refresh.createRefreshToken()")), c4)
                    | .ok newRefreshToken =>
                        let c5 := c4 ++
                          [CapCall.revokeAccessToken oldAccessToken.token]
                        match o.handlers.revokeAccessToken oldAccessToken.token with
                        | .error e =>
                            (.error (InvalidTokenError (.err e)
                              (some "Orchestrator.refresh.revokeAccessToken()")), c5)
                        | .ok _ =>
                            (.ok { access_token := newAccessToken.token
                                   expires_in := o.accessTokenLifetime
                                   refresh_token := some newRefreshToken.token
                                   scope := newAccessToken.scope
                                   token_type := "Bearer" }, c5)
                  else
                    let c4 := c3 ++ [CapCall.revokeAccessToken oldAccessToken.token]
                    match o.handlers.revokeAccessToken oldAccessToken.token with
                    | .error e =>
                        (.error (InvalidTokenError (.err e)
                          (some "Orchestrator.refresh.revokeAccessToken()")), c4)
                    | .ok _ =>
                        (.ok { access_token := newAccessToken.token
                               expires_in := o.accessTokenLifetime
                               refresh_token := none
                               scope := newAccessToken.scope
                               token_type := "Bearer" }, c4)

/-- Transform an orchestrator so that its retrieveAccessToken capability
reports a different `expires` timestamp on every retrieved access token,
leaving everything else unchanged.  Used to state that the refresh flow
never inspects the old access token's expiry. -/
def withAccessExpires (o : Orchestrator) (f : Nat → Nat) : Orchestrator :=
  { o with handlers :=
      { o.handlers with retrieveAccessToken := fun t =>
          match o.handlers.retrieveAccessToken t with
          | .error e => .error e
          | .ok tok => .ok { tok with expires := f tok.expires } } }

/-- Test fixture: an access token on record, mirroring the data of the
repository's TestOrchestratorHandlers ("fred" with scope "all flintstones"). -/
def atFixture : AccessToken :=
  { expires := 10, scope := "all flintstones", token := "access1",
    userId := .str "fred" }

/-- Test fixture: a refresh token on record, pointing at `atFixture`. -/
def rtFixture : RefreshToken :=
  { accessToken := "access1", expires := 1000, token := "refresh1",
    userId := .str "fred" }

/-- Test fixture: the authenticated user. -/
def userFixture : User :=
  { scope := "all flintstones", userId := .str "fred" }

/-- Test fixture: concrete capability handlers over the fixtures above.
Creation always succeeds with fresh token values; retrieval and revocation
succeed only for the tokens on record, failing with a generic Error
otherwise. -/
def handlersFixture : OrchestratorHandlers :=
  { authenticateUser := fun username password =>
      if username = "fred" && password = "flintstone" then .ok userFixture
      else .error (.plain "credentials: Invalid credentials")
    createAccessToken := fun expires scope userId =>
      .ok { expires := expires, scope := scope, token := "access2",
            userId := userId }
    createRefreshToken := fun accessToken expires userId =>
      .ok { accessToken := accessToken, expires := expires, token := "refresh2",
            userId := userId }
    retrieveAccessToken := fun token =>
      if token = "access1" then .ok atFixture
      else .error (.plain "retrieveAccessToken: Missing token")
    retrieveRefreshToken := fun token =>
      if token = "refresh1" then .ok rtFixture
      else .error (.plain "retrieveRefreshToken: Missing token")
    revokeAccessToken := fun token =>
      if token = "access1" then .ok ()
      else .error (.plain "revokeAccessToken: Missing token") }

/-- Test fixture: an orchestrator with default configuration over the
fixture handlers. -/
def oFixture : Orchestrator :=
  { handlers := handlersFixture }

/-- Test fixture: capability handlers whose revokeAccessToken fails with an
error that is already one of the taxonomy kinds (a ServerError). -/
def handlersOAuthFail : OrchestratorHandlers :=
  { handlersFixture with
    revokeAccessToken := fun _ =>
      Except.error (ServerError (.str "storage exploded") none) }

/-- Test fixture: orchestrator whose revoke capability throws a taxonomy
error. -/
def oOAuthFail : Orchestrator :=
  { handlers := handlersOAuthFail }

/-- Test fixture: the password request "fred"/"flintstone" with no
requested scope. -/
def pwReqNoScope : PasswordTokenRequest :=
  { grant_type := "password", password := "flintstone", username := "fred" }

/-- Test fixture: the same request asking for the narrower scope "all". -/
def pwReqAll : PasswordTokenRequest :=
  { pwReqNoScope with scope := some "all" }

/-- Test fixture: the same request asking for an unavailable scope. -/
def pwReqBad : PasswordTokenRequest :=
  { pwReqNoScope with scope := some "unavailable" }

/-- Test fixture: the same request with an explicitly empty scope field. -/
def pwReqEmptyScope : PasswordTokenRequest :=
  { pwReqNoScope with scope := some "" }

/-- Test fixture: a refresh request for the refresh token on record. -/
def refReq : RefreshTokenRequest :=
  { grant_type := "refresh_token", refresh_token := "refresh1" }

/-- Test fixture: a password request with wrong credentials. -/
def pwReqBetty : PasswordTokenRequest :=
  { grant_type := "password", password := "wrong", username := "betty" }

/-- Test fixture: the response produced for `pwReqAll` by the fixture
handlers. -/
def respAll : TokenResponse :=
  { access_token := "access2", expires_in := 86400,
    refresh_token := some "refresh2", scope := "all", token_type := "Bearer" }

/-- Test fixture: the response produced for `refReq` by the fixture
handlers. -/
def respRefresh : TokenResponse :=
  { access_token := "access2", expires_in := 86400,
    refresh_token := some "refresh2", scope := "all flintstones",
    token_type := "Bearer" }

/-- Do two scope strings denote the same set of space-delimited tokens
(each token of one occurs among the tokens of the other)?  Captures
"reordering or duplicating the tokens". -/
def sameTokens (s1 s2 : String) : Bool :=
  ((tokensOf s1).all fun x => (tokensOf s2).elem x)
    && ((tokensOf s2).all fun x => (tokensOf s1).elem x)

/-- A well-formed superuser configuration: absent, or a single permission
token, i.e. a string with no embedded space (the spec's glossary defines
the superuser scope as "a single configured permission token"). -/
def singleTokenSuperuser : Option String → Bool
  | none => true
  | some s => !(s.data.any fun c => c == ' ')

/- Helper lemmas -/

lemma isOAuthError_make (c : String) (s : Nat) (src : Source)
    (ctx : Option String) : (OAuthError.make c s src ctx).isOAuthError = true := by
  cases src <;> rfl

lemma guardOuter_ok (ctx : String) (a : α) (calls : List CapCall) :
    guardOuter ctx (Except.ok a, calls) = (Except.ok a, calls) := rfl

lemma guardOuter_oauth (ctx : String) (e : JsError) (calls : List CapCall)
    (h : e.isOAuthError = true) :
    guardOuter ctx ((Except.error e : Except JsError α), calls) =
      ((Except.error e : Except JsError α), calls) := by
  simp [guardOuter, h]

lemma guardOuter_make (ctx : String) (c : String) (s : Nat) (src : Source)
    (ctx2 : Option String) (calls : List CapCall) :
    guardOuter ctx
        ((Except.error (OAuthError.make c s src ctx2) : Except JsError α), calls) =
      (Except.error (OAuthError.make c s src ctx2), calls) :=
  guardOuter_oauth ctx _ calls (isOAuthError_make c s src ctx2)

/-- authorize with the (identity) outer catch removed. -/
lemma authorize_eq (o : Orchestrator) (now : Nat) (token required : String) :
    Orchestrator.authorize o now token required =
      (match o.handlers.retrieveAccessToken token with
       | .error e => .error (InvalidTokenError (.err e)
           (some "Orchestrator.authenticate.retrieveAccessToken()"))
       | .ok a =>
          if now > a.expires then
            .error (InvalidTokenError (.str "token: Expired access token")
              (some "Orchestrator.authenticate.checkExpiration()"))
          else if !(includedScope o.superuser required a.scope) then
            .error (InvalidScopeError
              (.str "scope: Required scope not authorized for this access token")
              (some "Orchestrator.authenticate.checkScope()"))
          else .ok (),
       [CapCall.retrieveAccessToken token]) := by
  unfold Orchestrator.authorize
  cases hR : o.handlers.retrieveAccessToken token with
  | error e =>
      simp [InvalidTokenError, guardOuter_make]
  | ok a =>
      by_cases h1 : now > a.expires
      · simp [h1, InvalidTokenError, guardOuter_make]
      · by_cases h2 : includedScope o.superuser required a.scope
        · simp [h1, h2, guardOuter_ok]
        · simp [h1, h2, InvalidScopeError, guardOuter_make]

/-- C1: `authorize` succeeds exactly when the access token is retrievable
via the capability contract, the current time is not past its `expires`
timestamp, and the scope matcher accepts (required, token.scope).  A
retrieval failure is wrapped as InvalidTokenError, an expired token fails
with InvalidTokenError, a scope mismatch fails with InvalidScopeError, and
the only capability call made in every case is the single non-mutating
retrieveAccessToken lookup. -/
theorem authorize_gate (o : Orchestrator) (now : Nat) (token required : String) :
    ((Orchestrator.authorize o now token required).1 = .ok () ↔
      ∃ a, o.handlers.retrieveAccessToken token = .ok a ∧
        ¬ now > a.expires ∧ includedScope o.superuser required a.scope = true)
    ∧ (∀ e, o.handlers.retrieveAccessToken token = .error e →
        (Orchestrator.authorize o now token required).1 =
          .error (InvalidTokenError (.err e)
            (some "Orchestrator.authenticate.retrieveAccessToken()")))
    ∧ (∀ a, o.handlers.retrieveAccessToken token = .ok a → now > a.expires →
        (Orchestrator.authorize o now token required).1 =
          .error (InvalidTokenError (.str "token: Expired access token")
            (some "Orchestrator.authenticate.checkExpiration()")))
    ∧ (∀ a, o.handlers.retrieveAccessToken token = .ok a → ¬ now > a.expires →
        includedScope o.superuser required a.scope = false →
        (Orchestrator.authorize o now token required).1 =
          .error (InvalidScopeError
            (.str "scope: Required scope not authorized for this access token")
            (some "Orchestrator.authenticate.checkScope()")))
    ∧ (Orchestrator.authorize o now token required).2 =
        [CapCall.retrieveAccessToken token]
    ∧ (∀ c ∈ (Orchestrator.authorize o now token required).2,
        c.isMutating = false) := by
  rw [authorize_eq]
  cases hR : o.handlers.retrieveAccessToken token with
  | error e =>
      refine ⟨?_, ?_, ?_, ?_, rfl, ?_⟩
      · simp [InvalidTokenError, OAuthError.make]
      · intro e' he'
        cases he'
        rfl
      · intro a ha
        cases ha
      · intro a ha
        cases ha
      · intro c hc
        simp at hc
        subst hc
        rfl
  | ok a =>
      refine ⟨?_, ?_, ?_, ?_, rfl, ?_⟩
      · constructor
        · intro h
          by_cases h1 : now > a.expires
          · simp [h1] at h
          · by_cases h2 : includedScope o.superuser required a.scope
            · exact ⟨a, rfl, h1, h2⟩
            · simp [h1, h2] at h
        · rintro ⟨a', ha', h1, h2⟩
          cases ha'
          simp [h1, h2]
      · intro e' he'
        cases he'
      · intro a' ha' h1
        cases ha'
        simp [h1]
      · intro a' ha' h1 h2
        cases ha'
        simp [h1, h2]
      · intro c hc
        simp at hc
        subst hc
        rfl

/-- C1 witness: with the fixture handlers, time 5 and required scope "all",
the token "access1" authorizes successfully with a single retrieval call. -/
theorem authorize_gate_witness :
    oFixture.handlers.retrieveAccessToken "access1" = .ok atFixture
    ∧ ¬ (5 > atFixture.expires)
    ∧ includedScope oFixture.superuser "all" atFixture.scope = true
    ∧ (Orchestrator.authorize oFixture 5 "access1" "all").1 = .ok () :=
  ⟨rfl, by decide, by decide,
    (authorize_gate oFixture 5 "access1" "all").1.mpr
      ⟨atFixture, rfl, by decide, by decide⟩⟩

/-- C4 counterexample: when the revokeAccessToken capability fails with an
error that is already a taxonomy kind (here a ServerError), `revoke`
rethrows it unchanged instead of normalizing it to InvalidTokenError, so
not every failure surfaces as InvalidToken. -/
theorem revoke_normalization_cex :
    (Orchestrator.revoke oOAuthFail "access1").1 =
      .error (ServerError (.str "storage exploded") none)
    ∧ errCode (Orchestrator.revoke oOAuthFail "access1").1 = some "server_error"
    ∧ (some "server_error" : Option String) ≠ some "invalid_token" :=
  ⟨rfl, rfl, by decide⟩

/-- C4 (amended): a failure of the revokeAccessToken capability that is not
already an OAuthError taxonomy kind is normalized to InvalidTokenError; a
failure that is already a taxonomy kind is rethrown unchanged; the only
capability call made is the revocation itself. -/
theorem revoke_error_policy (o : Orchestrator) (token : String) :
    (∀ e, o.handlers.revokeAccessToken token = .error e →
        e.isOAuthError = false →
        (Orchestrator.revoke o token).1 =
          .error (InvalidTokenError (.str "token: Invalid access token")
            (some "Orchestrator.revoke()")))
    ∧ (∀ e, o.handlers.revokeAccessToken token = .error e →
        e.isOAuthError = true →
        (Orchestrator.revoke o token).1 = .error e)
    ∧ (Orchestrator.revoke o token).2 = [CapCall.revokeAccessToken token] := by
  unfold Orchestrator.revoke
  cases hR : o.handlers.revokeAccessToken token with
  | ok u =>
      refine ⟨?_, ?_, rfl⟩
      · intro e he
        cases he
      · intro e he
        cases he
  | error e =>
      refine ⟨?_, ?_, ?_⟩
      · intro e' he' hn
        cases he'
        simp [hn]
      · intro e' he' hy
        cases he'
        simp [hy]
      · dsimp only
        split <;> rfl

/-- C4 witness: a plain (non-taxonomy) failure from the capability is
normalized to InvalidTokenError. -/
theorem revoke_error_policy_witness :
    oFixture.handlers.revokeAccessToken "nope" =
      .error (.plain "revokeAccessToken: Missing token")
    ∧ (JsError.plain "revokeAccessToken: Missing token").isOAuthError = false
    ∧ (Orchestrator.revoke oFixture "nope").1 =
        .error (InvalidTokenError (.str "token: Invalid access token")
          (some "Orchestrator.revoke()")) :=
  ⟨rfl, rfl, (revoke_error_policy oFixture "nope").1 _ rfl rfl⟩

/-- C6: every failure of the authenticateUser capability makes the password
flow fail with InvalidGrantError, whose code is invalid_grant, whose status
is 401, and whose `inner` field wraps the underlying cause rather than
letting it propagate unmodified. -/
theorem password_auth_failure_invalid_grant (o : Orchestrator) (now : Nat)
    (request : PasswordTokenRequest) (e : JsError)
    (h : o.handlers.authenticateUser request.username request.password =
      .error e) :
    (Orchestrator.password o now request).1 =
      .error (InvalidGrantError (.err e)
        (some "Orchestrator.password.authenticateUser()"))
    ∧ errCode (Orchestrator.password o now request).1 = some "invalid_grant"
    ∧ errStatus (Orchestrator.password o now request).1 = some 401
    ∧ errInner (Orchestrator.password o now request).1 = some e := by
  have hp : Orchestrator.password o now request =
      (.error (InvalidGrantError (.err e)
        (some "Orchestrator.password.authenticateUser()")),
       [CapCall.authenticateUser request.username request.password]) := by
    unfold Orchestrator.password
    rw [h]
    simp [guardOuter, InvalidGrantError, OAuthError.make, JsError.isOAuthError]
  rw [hp]
  exact ⟨rfl, rfl, rfl, rfl⟩

/-- C6 witness: wrong credentials for "betty" fail with invalid_grant,
status 401, wrapping the handler error as `inner`. -/
theorem password_auth_failure_invalid_grant_witness :
    oFixture.handlers.authenticateUser pwReqBetty.username pwReqBetty.password =
      .error (.plain "credentials: Invalid credentials")
    ∧ errCode (Orchestrator.password oFixture 5 pwReqBetty).1 =
        some "invalid_grant"
    ∧ errStatus (Orchestrator.password oFixture 5 pwReqBetty).1 = some 401
    ∧ errInner (Orchestrator.password oFixture 5 pwReqBetty).1 =
        some (.plain "credentials: Invalid credentials") :=
  ⟨rfl, (password_auth_failure_invalid_grant oFixture 5 pwReqBetty
    (.plain "credentials: Invalid credentials") rfl).2⟩

/-- C9: when a non-empty superuser scope is configured, the matcher accepts
every required scope as soon as the superuser string occurs as a contiguous
substring anywhere within the allowed string (whole-token occurrence is not
needed). -/
theorem superuser_substring_bypass (su r a : String)
    (h1 : su ≠ "") (h2 : stringIncludes a su = true) :
    includedScope (some su) r a = true := by
  have hs : superuserTruthy (some su) a = true := by
    simp [superuserTruthy, h2, bne_iff_ne]
    exact h1
  unfold includedScope
  simp [hs]

/-- C9 witness: superuser "admin" configured, allowed scope is the single
token "administrator": the superuser occurs only inside a longer word, yet
every required scope is accepted. -/
theorem superuser_substring_bypass_witness :
    ("admin" : String) ≠ ""
    ∧ stringIncludes "administrator" "admin" = true
    ∧ includedScope (some "admin") "anything at all" "administrator" = true :=
  ⟨by decide, by decide,
    superuser_substring_bypass "admin" "anything at all" "administrator"
      (by decide) (by decide)⟩

/-- On a successful password exchange the scope check passed (when a scope
was requested) and the response's scope is the granted scope: the requested
string when one was (truthily) given, the user's full scope otherwise. -/
lemma password_ok_facts (o : Orchestrator) (now : Nat)
    (request : PasswordTokenRequest) (user : User) (resp : TokenResponse)
    (hA : o.handlers.authenticateUser request.username request.password =
      .ok user)
    (hresp : (Orchestrator.password o now request).1 = .ok resp) :
    (optTruthy request.scope = true →
      includedScope o.superuser (request.scope.getD "") user.scope = true)
    ∧ resp.scope =
        (if optTruthy request.scope then request.scope.getD "" else user.scope) := by
  unfold Orchestrator.password at hresp
  rw [hA] at hresp
  dsimp only at hresp
  by_cases hT : optTruthy request.scope = true
  · by_cases hInc :
        includedScope o.superuser (request.scope.getD "") user.scope = true
    · refine ⟨fun _ => hInc, ?_⟩
      simp only [hT, hInc, Bool.not_true, Bool.and_false, Bool.true_and,
        Bool.false_eq_true, if_false, if_true] at hresp ⊢
      cases hC : o.handlers.createAccessToken
          (calculateExpires now o.accessTokenLifetime)
          (request.scope.getD "") user.userId with
      | error e =>
          rw [hC] at hresp
          simp [guardOuter, InvalidTokenError, OAuthError.make,
            JsError.isOAuthError] at hresp
      | ok at2 =>
          rw [hC] at hresp
          dsimp only at hresp
          by_cases hI : o.issueRefreshToken = true
          · simp only [hI, if_true] at hresp
            cases hRT : o.handlers.createRefreshToken at2.token
                (calculateExpires now o.refreshTokenLifetime) user.userId with
            | error e =>
                rw [hRT] at hresp
                simp [guardOuter, InvalidTokenError, OAuthError.make,
                  JsError.isOAuthError] at hresp
            | ok rt2 =>
                rw [hRT] at hresp
                simp only [guardOuter, Except.ok.injEq] at hresp
                subst hresp
                rfl
          · simp only [hI, Bool.false_eq_true, if_false] at hresp
            simp only [guardOuter, Except.ok.injEq] at hresp
            subst hresp
            rfl
    · exfalso
      have hInc' :
          includedScope o.superuser (request.scope.getD "") user.scope = false :=
        by simpa using hInc
      simp only [hT, hInc', Bool.true_and, Bool.not_false, if_true] at hresp
      simp [guardOuter, InvalidScopeError, OAuthError.make,
        JsError.isOAuthError] at hresp
  · refine ⟨fun h => absurd h hT, ?_⟩
    have hT' : optTruthy request.scope = false := by
      simpa using hT
    simp only [hT', Bool.false_and, Bool.false_eq_true, if_false] at hresp ⊢
    cases hC : o.handlers.createAccessToken
        (calculateExpires now o.accessTokenLifetime) user.scope user.userId with
    | error e =>
        rw [hC] at hresp
        simp [guardOuter, InvalidTokenError, OAuthError.make,
          JsError.isOAuthError] at hresp
    | ok at2 =>
        rw [hC] at hresp
        dsimp only at hresp
        by_cases hI : o.issueRefreshToken = true
        · simp only [hI, if_true] at hresp
          cases hRT : o.handlers.createRefreshToken at2.token
              (calculateExpires now o.refreshTokenLifetime) user.userId with
          | error e =>
              rw [hRT] at hresp
              simp [guardOuter, InvalidTokenError, OAuthError.make,
                JsError.isOAuthError] at hresp
          | ok rt2 =>
              rw [hRT] at hresp
              simp only [guardOuter, Except.ok.injEq] at hresp
              subst hresp
              rfl
        · simp only [hI, Bool.false_eq_true, if_false] at hresp
          simp only [guardOuter, Except.ok.injEq] at hresp
          subst hresp
          rfl

/-- C5: in the password flow with an authenticated user, a (truthy)
requested scope must be accepted by the scope matcher against the user's
scope or the flow fails with InvalidScopeError; on success the response's
scope is exactly the requested string.  With no requested scope the
response's scope is the user's full scope. -/
theorem password_scope_determination (o : Orchestrator) (now : Nat)
    (request : PasswordTokenRequest) (user : User)
    (hauth : o.handlers.authenticateUser request.username request.password =
      .ok user) :
    (∀ s, request.scope = some s → s ≠ "" →
      ((includedScope o.superuser s user.scope = false →
        (Orchestrator.password o now request).1 =
          .error (InvalidScopeError
            (.str ("scope: Scope " ++ s ++ " not allowed"))
            (some "Orchestrator.password.checkScope()")))
      ∧ (∀ resp, (Orchestrator.password o now request).1 = .ok resp →
          includedScope o.superuser s user.scope = true ∧ resp.scope = s)))
    ∧ (request.scope = none →
        ∀ resp, (Orchestrator.password o now request).1 = .ok resp →
          resp.scope = user.scope) := by
  constructor
  · intro s hs hne
    have hT : optTruthy request.scope = true := by
      simp [hs, optTruthy, bne_iff_ne]
      exact hne
    constructor
    · intro hbad
      unfold Orchestrator.password
      rw [hauth]
      dsimp only
      simp only [hs, Option.getD_some, hT]
      have hT' : optTruthy (some s) = true := by
        rw [← hs]
        exact hT
      simp [hT', hbad, guardOuter, InvalidScopeError, OAuthError.make,
        JsError.isOAuthError]
    · intro resp hresp
      have hf := password_ok_facts o now request user resp hauth hresp
      constructor
      · have h1 := hf.1 hT
        rw [hs] at h1
        simpa using h1
      · have h2 := hf.2
        rw [hT, if_pos rfl, hs] at h2
        simpa using h2
  · intro hnone resp hresp
    have hf := (password_ok_facts o now request user resp hauth hresp).2
    simp [hnone, optTruthy] at hf
    exact hf

/-- C5 witness: "fred" requesting the narrower scope "all" succeeds with
response scope exactly "all". -/
theorem password_scope_determination_witness :
    oFixture.handlers.authenticateUser pwReqAll.username pwReqAll.password =
      .ok userFixture
    ∧ pwReqAll.scope = some "all"
    ∧ ("all" : String) ≠ ""
    ∧ (Orchestrator.password oFixture 5 pwReqAll).1 = .ok respAll
    ∧ includedScope oFixture.superuser "all" userFixture.scope = true
    ∧ respAll.scope = "all" :=
  ⟨rfl, rfl, by decide, rfl,
    ((password_scope_determination oFixture 5 pwReqAll userFixture rfl).1
      "all" rfl (by decide)).2 respAll rfl⟩

/-- C10: a password request whose scope field is present but equal to ""
behaves exactly like a request with no scope field at all: the whole flow
(result and capability calls) is unchanged, and on success the granted
scope is the user's full scope. -/
theorem password_empty_scope_like_absent (o : Orchestrator) (now : Nat)
    (request : PasswordTokenRequest) (h : request.scope = some "") :
    Orchestrator.password o now request =
      Orchestrator.password o now { request with scope := none }
    ∧ (∀ user, o.handlers.authenticateUser request.username request.password =
        .ok user →
        ∀ resp, (Orchestrator.password o now request).1 = .ok resp →
          resp.scope = user.scope) := by
  constructor
  · unfold Orchestrator.password
    simp [h, optTruthy]
  · intro user hA resp hresp
    have hf := (password_ok_facts o now request user resp hA hresp).2
    simp [h, optTruthy] at hf
    exact hf

/-- The refresh flow never reads the retrieved (old) access token's
`expires` field: rewriting that field arbitrarily changes nothing about the
flow's result or its capability calls. -/
lemma refresh_withAccessExpires (o : Orchestrator) (f : Nat → Nat) (now : Nat)
    (request : RefreshTokenRequest) :
    Orchestrator.refresh (withAccessExpires o f) now request =
      Orchestrator.refresh o now request := by
  unfold Orchestrator.refresh withAccessExpires
  dsimp only
  cases h1 : o.handlers.retrieveRefreshToken request.refresh_token with
  | error e => rfl
  | ok rt =>
      dsimp only
      by_cases h2 : now > rt.expires
      · rw [if_pos h2, if_pos h2]
      · rw [if_neg h2, if_neg h2]
        cases h3 : o.handlers.retrieveAccessToken rt.accessToken with
        | error e => rfl
        | ok oat => rfl

/-- C10 witness: the fixture request with scope field "" produces the same
run as the one with no scope field, and is granted the user's full scope
"all flintstones". -/
theorem password_empty_scope_like_absent_witness :
    pwReqEmptyScope.scope = some ""
    ∧ Orchestrator.password oFixture 5 pwReqEmptyScope =
        Orchestrator.password oFixture 5 { pwReqEmptyScope with scope := none }
    ∧ (Orchestrator.password oFixture 5 pwReqEmptyScope).1 = .ok respRefresh
    ∧ respRefresh.scope = userFixture.scope :=
  ⟨rfl,
    (password_empty_scope_like_absent oFixture 5 pwReqEmptyScope rfl).1,
    rfl,
    (password_empty_scope_like_absent oFixture 5 pwReqEmptyScope rfl).2
      userFixture rfl respRefresh rfl⟩

/-- C2: every successful refresh exchange created its new access token via
createAccessToken called with exactly the old access token's scope and
userId, and the response's scope is the new token's scope (hence the old
token's scope whenever the capability honours its contract); if the old
access token cannot be retrieved the flow fails with InvalidTokenError; and
the old access token's own expiry is never consulted, so an expired old
access token cannot make the refresh fail. -/
theorem refresh_carries_forward (o : Orchestrator) (now : Nat)
    (request : RefreshTokenRequest) :
    (∀ resp, (Orchestrator.refresh o now request).1 = .ok resp →
      ∃ rt oat newAt,
        o.handlers.retrieveRefreshToken request.refresh_token = .ok rt
        ∧ o.handlers.retrieveAccessToken rt.accessToken = .ok oat
        ∧ o.handlers.createAccessToken
            (calculateExpires now o.accessTokenLifetime) oat.scope oat.userId
            = .ok newAt
        ∧ CapCall.createAccessToken
            (calculateExpires now o.accessTokenLifetime) oat.scope oat.userId
            ∈ (Orchestrator.refresh o now request).2
        ∧ resp.scope = newAt.scope
        ∧ (newAt.scope = oat.scope → resp.scope = oat.scope))
    ∧ (∀ rt e, o.handlers.retrieveRefreshToken request.refresh_token = .ok rt →
        ¬ now > rt.expires →
        o.handlers.retrieveAccessToken rt.accessToken = .error e →
        (Orchestrator.refresh o now request).1 =
          .error (InvalidTokenError (.err e)
            (some "Orchestrator.refresh.retrieveAccessToken()")))
    ∧ (∀ f, Orchestrator.refresh (withAccessExpires o f) now request =
        Orchestrator.refresh o now request) := by
  refine ⟨?_, ?_, fun f => refresh_withAccessExpires o f now request⟩
  · intro resp hresp
    unfold Orchestrator.refresh at hresp ⊢
    cases h1 : o.handlers.retrieveRefreshToken request.refresh_token with
    | error e =>
        rw [h1] at hresp
        simp [guardOuter, InvalidTokenError, OAuthError.make,
          JsError.isOAuthError] at hresp
    | ok rt =>
        rw [h1] at hresp
        dsimp only at hresp ⊢
        by_cases h2 : now > rt.expires
        · rw [if_pos h2] at hresp
          simp [guardOuter, InvalidTokenError, OAuthError.make,
            JsError.isOAuthError] at hresp
        · rw [if_neg h2] at hresp ⊢
          cases h3 : o.handlers.retrieveAccessToken rt.accessToken with
          | error e =>
              rw [h3] at hresp
              simp [guardOuter, InvalidTokenError, OAuthError.make,
                JsError.isOAuthError] at hresp
          | ok oat =>
              rw [h3] at hresp
              dsimp only at hresp ⊢
              cases h4 : o.handlers.createAccessToken
                  (calculateExpires now o.accessTokenLifetime)
                  oat.scope oat.userId with
              | error e =>
                  rw [h4] at hresp
                  simp [guardOuter, InvalidTokenError, OAuthError.make,
                    JsError.isOAuthError] at hresp
              | ok newAt =>
                  rw [h4] at hresp
                  dsimp only at hresp ⊢
                  refine ⟨rt, oat, newAt, rfl, h3, h4, ?_⟩
                  by_cases h5 : o.issueRefreshToken = true
                  · rw [if_pos h5] at hresp ⊢
                    cases h6 : o.handlers.createRefreshToken newAt.token
                        (calculateExpires now o.refreshTokenLifetime)
                        oat.userId with
                    | error e =>
                        rw [h6] at hresp
                        simp [guardOuter, InvalidTokenError, OAuthError.make,
                          JsError.isOAuthError] at hresp
                    | ok nrt =>
                        rw [h6] at hresp
                        dsimp only at hresp ⊢
                        cases h7 : o.handlers.revokeAccessToken oat.token with
                        | error e =>
                            rw [h7] at hresp
                            simp [guardOuter, InvalidTokenError,
                              OAuthError.make, JsError.isOAuthError] at hresp
                        | ok u =>
                            rw [h7] at hresp
                            simp only [guardOuter, Except.ok.injEq] at hresp
                            subst hresp
                            refine ⟨by simp [guardOuter], rfl, fun h => h⟩
                  · rw [if_neg h5] at hresp ⊢
                    cases h7 : o.handlers.revokeAccessToken oat.token with
                    | error e =>
                        rw [h7] at hresp
                        simp [guardOuter, InvalidTokenError,
                          OAuthError.make, JsError.isOAuthError] at hresp
                    | ok u =>
                        rw [h7] at hresp
                        simp only [guardOuter, Except.ok.injEq] at hresp
                        subst hresp
                        refine ⟨by simp [guardOuter], rfl, fun h => h⟩
  · intro rt e h1 h2 h3
    unfold Orchestrator.refresh
    rw [h1]
    dsimp only
    rw [if_neg h2, h3]
    simp [guardOuter, InvalidTokenError, OAuthError.make, JsError.isOAuthError]

/-- C3: whenever the refresh flow invokes the revokeAccessToken capability,
the revocation call sits strictly after a successful createAccessToken call
(and, when refresh tokens are enabled, after a successful
createRefreshToken call) in the capability-call trace, and its target is
the old access token.  Contrapositively, an execution that fails at or
before token creation performs no revocation. -/
theorem refresh_revoke_only_after_create (o : Orchestrator) (now : Nat)
    (request : RefreshTokenRequest) (t : String)
    (h : CapCall.revokeAccessToken t ∈ (Orchestrator.refresh o now request).2) :
    ∃ l1 l2 rt oat newAt,
      (Orchestrator.refresh o now request).2 =
        l1 ++ CapCall.revokeAccessToken t :: l2
      ∧ o.handlers.retrieveRefreshToken request.refresh_token = .ok rt
      ∧ o.handlers.retrieveAccessToken rt.accessToken = .ok oat
      ∧ t = oat.token
      ∧ o.handlers.createAccessToken
          (calculateExpires now o.accessTokenLifetime) oat.scope oat.userId
          = .ok newAt
      ∧ CapCall.createAccessToken
          (calculateExpires now o.accessTokenLifetime) oat.scope oat.userId ∈ l1
      ∧ (o.issueRefreshToken = true →
          ∃ nrt, o.handlers.createRefreshToken newAt.token
              (calculateExpires now o.refreshTokenLifetime) oat.userId = .ok nrt
            ∧ CapCall.createRefreshToken newAt.token
                (calculateExpires now o.refreshTokenLifetime) oat.userId ∈ l1) := by
  unfold Orchestrator.refresh at h ⊢
  cases h1 : o.handlers.retrieveRefreshToken request.refresh_token with
  | error e =>
      rw [h1] at h
      simp [guardOuter, InvalidTokenError, OAuthError.make,
        JsError.isOAuthError] at h
  | ok rt =>
      rw [h1] at h
      dsimp only at h ⊢
      by_cases h2 : now > rt.expires
      · rw [if_pos h2] at h
        simp [guardOuter, InvalidTokenError, OAuthError.make,
          JsError.isOAuthError] at h
      · rw [if_neg h2] at h ⊢
        cases h3 : o.handlers.retrieveAccessToken rt.accessToken with
        | error e =>
            rw [h3] at h
            simp [guardOuter, InvalidTokenError, OAuthError.make,
              JsError.isOAuthError] at h
        | ok oat =>
            rw [h3] at h
            dsimp only at h ⊢
            cases h4 : o.handlers.createAccessToken
                (calculateExpires now o.accessTokenLifetime)
                oat.scope oat.userId with
            | error e =>
                rw [h4] at h
                simp [guardOuter, InvalidTokenError, OAuthError.make,
                  JsError.isOAuthError] at h
            | ok newAt =>
                rw [h4] at h
                dsimp only at h ⊢
                by_cases h5 : o.issueRefreshToken = true
                · rw [if_pos h5] at h ⊢
                  cases h6 : o.handlers.createRefreshToken newAt.token
                      (calculateExpires now o.refreshTokenLifetime)
                      oat.userId with
                  | error e =>
                      rw [h6] at h
                      simp [guardOuter, InvalidTokenError, OAuthError.make,
                        JsError.isOAuthError] at h
                  | ok nrt =>
                      rw [h6] at h
                      dsimp only at h ⊢
                      cases h7 : o.handlers.revokeAccessToken oat.token with
                      | error e =>
                          rw [h7] at h
                          simp [guardOuter, InvalidTokenError, OAuthError.make,
                            JsError.isOAuthError] at h
                          subst h
                          refine ⟨[CapCall.retrieveRefreshToken
                              request.refresh_token,
                            CapCall.retrieveAccessToken rt.accessToken,
                            CapCall.createAccessToken
                              (calculateExpires now o.accessTokenLifetime)
                              oat.scope oat.userId,
                            CapCall.createRefreshToken newAt.token
                              (calculateExpires now o.refreshTokenLifetime)
                              oat.userId], [], rt, oat, newAt,
                            by simp [guardOuter, InvalidTokenError,
                              OAuthError.make, JsError.isOAuthError],
                            rfl, h3, rfl, h4, by simp,
                            fun _ => ⟨nrt, h6, by simp⟩⟩
                      | ok u =>
                          rw [h7] at h
                          simp [guardOuter] at h
                          subst h
                          refine ⟨[CapCall.retrieveRefreshToken
                              request.refresh_token,
                            CapCall.retrieveAccessToken rt.accessToken,
                            CapCall.createAccessToken
                              (calculateExpires now o.accessTokenLifetime)
                              oat.scope oat.userId,
                            CapCall.createRefreshToken newAt.token
                              (calculateExpires now o.refreshTokenLifetime)
                              oat.userId], [], rt, oat, newAt,
                            by simp [guardOuter],
                            rfl, h3, rfl, h4, by simp,
                            fun _ => ⟨nrt, h6, by simp⟩⟩
                · rw [if_neg h5] at h ⊢
                  cases h7 : o.handlers.revokeAccessToken oat.token with
                  | error e =>
                      rw [h7] at h
                      simp [guardOuter, InvalidTokenError, OAuthError.make,
                        JsError.isOAuthError] at h
                      subst h
                      refine ⟨[CapCall.retrieveRefreshToken
                          request.refresh_token,
                        CapCall.retrieveAccessToken rt.accessToken,
                        CapCall.createAccessToken
                          (calculateExpires now o.accessTokenLifetime)
                          oat.scope oat.userId], [], rt, oat, newAt,
                        by simp [guardOuter, InvalidTokenError,
                          OAuthError.make, JsError.isOAuthError],
                        rfl, h3, rfl, h4, by simp,
                        fun hI => absurd hI h5⟩
                  | ok u =>
                      rw [h7] at h
                      simp [guardOuter] at h
                      subst h
                      refine ⟨[CapCall.retrieveRefreshToken
                          request.refresh_token,
                        CapCall.retrieveAccessToken rt.accessToken,
                        CapCall.createAccessToken
                          (calculateExpires now o.accessTokenLifetime)
                          oat.scope oat.userId], [], rt, oat, newAt,
                        by simp [guardOuter],
                        rfl, h3, rfl, h4, by simp,
                        fun hI => absurd hI h5⟩

/-- C3 witness: in the fixture refresh run the revocation of "access1"
occurs, and it sits after the successful creation calls in the trace. -/
theorem refresh_revoke_only_after_create_witness :
    CapCall.revokeAccessToken "access1" ∈
      (Orchestrator.refresh oFixture 99 refReq).2
    ∧ ∃ l1 l2 rt oat newAt,
        (Orchestrator.refresh oFixture 99 refReq).2 =
          l1 ++ CapCall.revokeAccessToken "access1" :: l2
        ∧ oFixture.handlers.retrieveRefreshToken refReq.refresh_token = .ok rt
        ∧ oFixture.handlers.retrieveAccessToken rt.accessToken = .ok oat
        ∧ "access1" = oat.token
        ∧ oFixture.handlers.createAccessToken
            (calculateExpires 99 oFixture.accessTokenLifetime)
            oat.scope oat.userId = .ok newAt
        ∧ CapCall.createAccessToken
            (calculateExpires 99 oFixture.accessTokenLifetime)
            oat.scope oat.userId ∈ l1
        ∧ (oFixture.issueRefreshToken = true →
            ∃ nrt, oFixture.handlers.createRefreshToken newAt.token
                (calculateExpires 99 oFixture.refreshTokenLifetime)
                oat.userId = .ok nrt
              ∧ CapCall.createRefreshToken newAt.token
                  (calculateExpires 99 oFixture.refreshTokenLifetime)
                  oat.userId ∈ l1) :=
  ⟨by decide,
    refresh_revoke_only_after_create oFixture 99 refReq "access1" (by decide)⟩

/-- C2 witness: with the fixture store, time 99, the old access token is
already expired (expires 10 < 99) yet the refresh succeeds, carrying scope
"all flintstones" and userId forward into the createAccessToken call and
the response. -/
theorem refresh_carries_forward_witness :
    (99 > atFixture.expires)
    ∧ (Orchestrator.refresh oFixture 99 refReq).1 = .ok respRefresh
    ∧ (∃ rt oat newAt,
        oFixture.handlers.retrieveRefreshToken refReq.refresh_token = .ok rt
        ∧ oFixture.handlers.retrieveAccessToken rt.accessToken = .ok oat
        ∧ oFixture.handlers.createAccessToken
            (calculateExpires 99 oFixture.accessTokenLifetime)
            oat.scope oat.userId = .ok newAt
        ∧ CapCall.createAccessToken
            (calculateExpires 99 oFixture.accessTokenLifetime)
            oat.scope oat.userId ∈ (Orchestrator.refresh oFixture 99 refReq).2
        ∧ respRefresh.scope = newAt.scope
        ∧ (newAt.scope = oat.scope → respRefresh.scope = oat.scope)) :=
  ⟨by decide, rfl,
    (refresh_carries_forward oFixture 99 refReq).1 respRefresh rfl⟩

/-- JavaScript split never produces an empty list of fragments. -/
lemma jsSplitList_ne_nil (sep : Char) (l : List Char) :
    jsSplitList sep l ≠ [] := by
  induction l with
  | nil => simp [jsSplitList]
  | cons c cs ih =>
      simp only [jsSplitList]
      cases hc : (c == sep)
      · cases hcs : jsSplitList sep cs with
        | nil => simp
        | cons h t => simp
      · simp

lemma jsSplit_ne_nil (s : String) : jsSplit s ≠ [] := by
  unfold jsSplit
  intro h
  exact jsSplitList_ne_nil ' ' s.data (List.map_eq_nil_iff.mp h)

lemma tokensOf_eq_nil_iff (s : String) : tokensOf s = [] ↔ s = "" := by
  unfold tokensOf
  by_cases h : s = ""
  · simp [h]
  · simp [h, jsSplit_ne_nil]

/-- includedScope in terms of the token lists: superuser bypass, empty
required token list accepts, empty allowed list (with a non-empty required
list) rejects, otherwise token-set containment. -/
lemma includedScope_canon (su : Option String) (r a : String) :
    includedScope su r a =
      (if superuserTruthy su a then true
       else if tokensOf r = [] then true
       else if tokensOf a = [] then false
       else (tokensOf r).all fun x => (tokensOf a).any fun y => x == y) := by
  unfold includedScope
  by_cases hsu : superuserTruthy su a = true
  · simp [hsu]
  · by_cases hr : r = ""
    · simp [hsu, hr, tokensOf]
    · have hrt : tokensOf r ≠ [] := fun h => hr ((tokensOf_eq_nil_iff r).mp h)
      by_cases ha : tokensOf a = []
      · simp [hsu, hr, hrt, ha, List.length_eq_zero]
      · simp [hsu, hr, hrt, ha, List.length_eq_zero]

/-- C7: with no superuser scope configured, the matcher accepts an empty
required scope against anything; any non-empty scope is included in itself;
tokens are matched whole rather than as substrings (required "admin" is not
satisfied by allowed "administrator"); and a non-empty required scope is
never satisfied by an empty allowed scope. -/
theorem includedScope_basic_laws :
    (∀ x, includedScope none "" x = true)
    ∧ (∀ r, r ≠ "" → includedScope none r r = true)
    ∧ includedScope none "admin" "administrator" = false
    ∧ (∀ r, r ≠ "" → includedScope none r "" = false) := by
  refine ⟨?_, ?_, by decide, ?_⟩
  · intro x
    rw [includedScope_canon]
    simp [superuserTruthy, tokensOf]
  · intro r hr
    rw [includedScope_canon]
    by_cases h2 : tokensOf r = []
    · simp [superuserTruthy, h2]
    · simp only [superuserTruthy, h2, if_neg, if_false]
      simp [List.all_eq_true, List.any_eq_true]
  · intro r hr
    rw [includedScope_canon]
    have h2 : tokensOf r ≠ [] := fun h => hr ((tokensOf_eq_nil_iff r).mp h)
    simp [superuserTruthy, h2, tokensOf]
    exact ⟨hr, jsSplit_ne_nil r⟩

/-- C7 witness: concrete instances of the reflexivity and empty-allowed
laws at non-empty scope strings. -/
theorem includedScope_basic_laws_witness :
    ("a b" : String) ≠ "" ∧ includedScope none "a b" "a b" = true
    ∧ ("a" : String) ≠ "" ∧ includedScope none "a" "" = false :=
  ⟨by decide, includedScope_basic_laws.2.1 "a b" (by decide),
    by decide, includedScope_basic_laws.2.2.2 "a" (by decide)⟩

lemma boolEqOfIff {a b : Bool} (h : a = true ↔ b = true) : a = b := by
  cases a <;> cases b <;> simp_all

/-- The first fragment of a JavaScript split is the longest separator-free
prefix: a separator-free needle is a prefix of the input exactly when it is
a prefix of that first fragment. -/
lemma hasPref_head (sep : Char) :
    ∀ (cs n h : List Char) (t : List (List Char)),
      sep ∉ n → jsSplitList sep cs = h :: t → hasPref n cs = hasPref n h := by
  intro cs
  induction cs with
  | nil =>
      intro n h t hn hsplit
      simp only [jsSplitList] at hsplit
      injection hsplit with h1 h2
      subst h1
      rfl
  | cons c cs ih =>
      intro n h t hn hsplit
      simp only [jsSplitList] at hsplit
      cases hc : (c == sep) with
      | true =>
          rw [hc] at hsplit
          simp only [if_true] at hsplit
          injection hsplit with h1 h2
          subst h1
          cases n with
          | nil => rfl
          | cons n0 n' =>
              have hc' : c = sep := by simpa using hc
              have hn0 : ¬ (n0 = sep) := fun he => hn (by simp [he])
              have hb : (n0 == c) = false := by
                subst hc'
                simp [hn0]
              simp [hasPref, hb]
      | false =>
          rw [hc] at hsplit
          simp only [Bool.false_eq_true, if_false] at hsplit
          cases hcs : jsSplitList sep cs with
          | nil => exact absurd hcs (jsSplitList_ne_nil sep cs)
          | cons h' t' =>
              rw [hcs] at hsplit
              injection hsplit with h1 h2
              subst h1
              cases n with
              | nil => rfl
              | cons n0 n' =>
                  have hn' : sep ∉ n' :=
                    fun hm => hn (List.mem_cons_of_mem _ hm)
                  have hp := ih n' h' t' hn' hcs
                  simp [hasPref, hp]

/-- A separator-free, non-empty needle occurs as a segment of the input
exactly when it occurs as a segment of one of the split fragments. -/
lemma hasSub_tokens (sep : Char) :
    ∀ (hay n : List Char), sep ∉ n → n ≠ [] →
      hasSub n hay = (jsSplitList sep hay).any fun tok => hasSub n tok := by
  intro hay
  induction hay with
  | nil =>
      intro n hn hne
      simp [jsSplitList, hasSub]
  | cons d ds ih =>
      intro n hn hne
      simp only [jsSplitList]
      cases hd : (d == sep) with
      | true =>
          cases n with
          | nil => exact absurd rfl hne
          | cons n0 n' =>
              have hd' : d = sep := by simpa using hd
              have hn0 : ¬ (n0 = sep) := fun he => hn (by simp [he])
              have hb : (n0 == d) = false := by
                subst hd'
                simp [hn0]
              have hrec := ih (n0 :: n') hn hne
              simp [hasSub, hasPref, hb, hrec]
      | false =>
          cases hcs : jsSplitList sep ds with
          | nil => exact absurd hcs (jsSplitList_ne_nil sep ds)
          | cons h' t' =>
              cases n with
              | nil => exact absurd rfl hne
              | cons n0 n' =>
                  have hn' : sep ∉ n' :=
                    fun hm => hn (List.mem_cons_of_mem _ hm)
                  have hp := hasPref_head sep ds n' h' t' hn' hcs
                  have hrec := ih (n0 :: n') hn hne
                  rw [hcs] at hrec
                  simp [hasSub, hasPref, hp, hrec, Bool.or_assoc]

/-- For a single-token (space-free, non-empty) needle, the JavaScript
substring test against a scope string depends only on its token list. -/
lemma stringIncludes_tokens (su a : String) (h1 : su ≠ "")
    (h2 : ' ' ∉ su.data) :
    stringIncludes a su = (tokensOf a).any fun tok => stringIncludes tok su := by
  have hne : su.data ≠ [] := by
    intro hd
    apply h1
    cases su with
    | mk l =>
        simp only at hd
        rw [hd]
  unfold stringIncludes tokensOf
  by_cases ha : a = ""
  · subst ha
    cases hsd : su.data with
    | nil => exact absurd hsd hne
    | cons c cs => simp [hasSub, hasPref]
  · simp only [ha, if_neg, if_false]
    rw [hasSub_tokens ' ' a.data su.data h2 hne]
    unfold jsSplit
    have hmap : ∀ (l : List (List Char)),
        ((l.map fun cs => String.mk cs).any fun tok => hasSub su.data tok.data)
          = l.any fun tok => hasSub su.data tok := by
      intro l
      induction l with
      | nil => rfl
      | cons x xs ih => simp [List.any_cons, ih]
    rw [hmap]

lemma any_congr_mem {l1 l2 : List String}
    (h : ∀ x, x ∈ l1 ↔ x ∈ l2) (p : String → Bool) : l1.any p = l2.any p := by
  apply boolEqOfIff
  simp only [List.any_eq_true]
  constructor
  · rintro ⟨x, hx, hp⟩
    exact ⟨x, (h x).mp hx, hp⟩
  · rintro ⟨x, hx, hp⟩
    exact ⟨x, (h x).mpr hx, hp⟩

lemma sameTokens_mem {s1 s2 : String} (h : sameTokens s1 s2 = true) :
    ∀ x, x ∈ tokensOf s1 ↔ x ∈ tokensOf s2 := by
  unfold sameTokens at h
  simp only [Bool.and_eq_true, List.all_eq_true] at h
  obtain ⟨h1, h2⟩ := h
  intro x
  constructor
  · intro hx
    simpa [List.elem_iff] using h1 x hx
  · intro hx
    simpa [List.elem_iff] using h2 x hx

lemma mem_iff_nil_iff {l1 l2 : List String}
    (h : ∀ x, x ∈ l1 ↔ x ∈ l2) : l1 = [] ↔ l2 = [] := by
  constructor
  · intro he
    rw [List.eq_nil_iff_forall_not_mem]
    intro x hx
    have hx1 := (h x).mpr hx
    rw [he] at hx1
    exact absurd hx1 (List.not_mem_nil x)
  · intro he
    rw [List.eq_nil_iff_forall_not_mem]
    intro x hx
    have hx2 := (h x).mp hx
    rw [he] at hx2
    exact absurd hx2 (List.not_mem_nil x)

/-- C8: the scope matcher is a pure function of its two argument strings —
it is a Lean function of the configured superuser scope and the two strings
and of nothing else — and, for any configuration whose superuser scope is
absent or a single (space-free) permission token, its result is unchanged
when either argument is replaced by any string carrying the same set of
space-delimited tokens (reordering and duplication included). -/
theorem includedScope_token_set_invariant (su : Option String)
    (r1 r2 a1 a2 : String)
    (hsu : singleTokenSuperuser su = true)
    (hr : sameTokens r1 r2 = true)
    (ha : sameTokens a1 a2 = true) :
    includedScope su r1 a1 = includedScope su r2 a2 := by
  have hrm := sameTokens_mem hr
  have ham := sameTokens_mem ha
  rw [includedScope_canon, includedScope_canon]
  have hSU : superuserTruthy su a1 = superuserTruthy su a2 := by
    cases su with
    | none => rfl
    | some s =>
        by_cases hs : s = ""
        · simp [superuserTruthy, hs]
        · have hsp : ' ' ∉ s.data := by
            intro hmem
            have := by simpa [singleTokenSuperuser, List.any_eq_true] using hsu
            exact this ' ' hmem rfl
          simp only [superuserTruthy]
          rw [stringIncludes_tokens s a1 hs hsp,
            stringIncludes_tokens s a2 hs hsp, any_congr_mem ham]
  have hR := mem_iff_nil_iff hrm
  have hA := mem_iff_nil_iff ham
  rw [hSU]
  by_cases hsu2 : superuserTruthy su a2 = true
  · simp [hsu2]
  · simp only [hsu2, Bool.false_eq_true, if_false]
    by_cases h2 : tokensOf r2 = []
    · have h1 : tokensOf r1 = [] := hR.mpr h2
      simp [h1, h2]
    · have h1 : tokensOf r1 ≠ [] := fun hh => h2 (hR.mp hh)
      by_cases h3 : tokensOf a2 = []
      · have h4 : tokensOf a1 = [] := hA.mpr h3
        simp [h1, h2, h3, h4]
      · have h4 : tokensOf a1 ≠ [] := fun hh => h3 (hA.mp hh)
        simp only [h1, h2, h3, h4, if_neg, if_false]
        apply boolEqOfIff
        simp only [List.all_eq_true, List.any_eq_true]
        constructor
        · intro H x hx
          obtain ⟨y, hy, he⟩ := H x ((hrm x).mpr hx)
          exact ⟨y, (ham y).mp hy, he⟩
        · intro H x hx
          obtain ⟨y, hy, he⟩ := H x ((hrm x).mp hx)
          exact ⟨y, (ham y).mpr hy, he⟩

/-- C8 witness: superuser "root" configured; "a b" versus its reordered
duplicate "b a b", and "b a" versus "a b", give the same matcher result. -/
theorem includedScope_token_set_invariant_witness :
    singleTokenSuperuser (some "root") = true
    ∧ sameTokens "a b" "b a b" = true
    ∧ sameTokens "b a" "a b" = true
    ∧ includedScope (some "root") "a b" "b a" =
        includedScope (some "root") "b a b" "a b" :=
  ⟨by decide, by decide, by decide,
    includedScope_token_set_invariant (some "root") "a b" "b a b" "b a" "a b"
      (by decide) (by decide) (by decide)⟩
